import Mathlib

/-!
Verification of the GPG key manager core (`gpg_key_manager_core.py`,
driven by `GPG-KeyManager.py`).

The Python code is a sequence-of-subprocess-calls orchestrator.  We embed it
shallowly: every external observation (gpg subprocess outcomes, network
responses, interactive input, the current timestamp) is a field of a `World`
oracle, and the mutable state touched by the program (the global git
configuration and the JSON config file under `~/.gpgkeymanager/`) is an
explicit `St` value threaded through the functions.  Each embedded function
mirrors the control flow of the Python method of the same name; subprocess
calls with `check=True` can fail either with a non-zero exit status
(`CalledProcessError`, which the code frequently catches) or with an OS-level
error such as `FileNotFoundError` (`ProcOut.oserror`, which the code's
`except subprocess.CalledProcessError` clauses do not catch).
-/

deriving instance DecidableEq for Except

/-- Outcome of one `subprocess.run` invocation: a completed process with an
exit code, stdout and stderr, or an OS-level failure that raises an exception
other than `CalledProcessError` (e.g. `FileNotFoundError`). -/
inductive ProcOut where
  | exit (code : Nat) (stdout stderr : String)
  | oserror
deriving DecidableEq, Repr

/-- The Python exception kinds the embedded code distinguishes. -/
inductive PyExc where
  | calledProcessError (stderr : String)
  | oserror
  | indexError
deriving DecidableEq, Repr

/-- `str(e)` for the exceptions above, as used when the code interpolates a
caught exception into an error message. -/
def pyExcMsg : PyExc → String
  | .calledProcessError stderr => "Command returned non-zero exit status: " ++ stderr
  | .oserror => "OSError"
  | .indexError => "list index out of range"

/-- A Python value as stored in the status dictionary: the code puts strings,
booleans and (in one error branch) an empty dict there. -/
inductive PyVal where
  | str (s : String)
  | bool (b : Bool)
  | dict (entries : List (String × String))
deriving DecidableEq, Repr

/-- One GPG key object in a GitHub API response; `.get('fingerprint','')` /
`.get('key_id')` default to the empty string for absent fields. -/
structure GhKey where
  fingerprint : String := ""
  key_id : String := ""
deriving DecidableEq, Repr

/-- Outcome of one `requests.get` / `requests.post` call: a response with a
status code, a JSON body (a list of GPG key objects and, for error responses,
a `message` field), or a raised `requests.RequestException`. -/
inductive NetOut where
  | resp (status : Nat) (keys : List GhKey) (message : String)
  | exc (msg : String)
deriving DecidableEq, Repr

/-- Outcome of an `input()` call guarded by a 30-second `SIGALRM`:
either a line of input or the `TimeoutError` raised by the alarm handler. -/
inductive InputOut where
  | line (s : String)
  | timeout
deriving DecidableEq, Repr

/-- An external call performed by an operation, recorded so that theorems can
state which subprocess / network interactions were attempted. -/
inductive Eff where
  | gpg (args : List String)
  | git (args : List String)
  | net (method url : String)
deriving DecidableEq, Repr

/-- True for a git subprocess effect. -/
def Eff.isGit : Eff → Bool
  | .git _ => true
  | _ => false

/-- True for a network effect. -/
def Eff.isNet : Eff → Bool
  | .net _ _ => true
  | _ => false

/-- The environment oracle: outcomes of every external interaction a run can
perform, keyed by call site (and by the key id / fingerprint argument where
the Python passes one). -/
structure World where
  /-- `gpg --version` -/
  gpgVersion : ProcOut
  /-- `gpg --list-secret-keys --keyid-format=long` -/
  gpgListSecretLong : ProcOut
  /-- `gpg --list-secret-keys --with-colons` -/
  gpgListSecretColons : ProcOut
  /-- `gpg --armor --export <key_id>` -/
  gpgExport : String → ProcOut
  /-- `gpg --armor --export --no-tty --batch <key_id>` -/
  gpgExportBatch : String → ProcOut
  /-- `gpg --fingerprint <key_id>` (human-readable format) -/
  gpgFingerprintLong : String → ProcOut
  /-- `gpg --with-colons --fingerprint <key_id>` -/
  gpgFingerprintColons : String → ProcOut
  /-- `gpg --list-keys --with-colons <key_id>` -/
  gpgListKeysColons : String → ProcOut
  /-- `gpg --batch --yes --delete-secret-and-public-key <fingerprint>` -/
  gpgDelete : String → ProcOut
  /-- PAT typed at `connect_to_github`'s prompt -/
  patInput : String
  /-- token typed at `connect_github`'s prompt -/
  tokenInput : String
  /-- username typed at `connect_github`'s fallback prompt -/
  usernameInput : String
  /-- answer to `connect_github`'s y/n prompt (30 s alarm) -/
  confirmInput : InputOut
  /-- `GET https://api.github.com/user/gpg_keys` (token validation / existence check) -/
  getUserGpgKeys : NetOut
  /-- `POST https://api.github.com/user/gpg_keys` (key upload) -/
  postUserGpgKeys : NetOut
  /-- `GET https://api.github.com/user/gpg_keys` re-check after the upload settling delay -/
  getUserGpgKeys2 : NetOut
  /-- `GET https://api.github.com/users/{username}/gpg_keys` -/
  getUsersGpgKeys : String → NetOut
  /-- `datetime.now().isoformat()` -/
  nowIso : String

/-- The global git configuration entries the program reads or writes. -/
structure GitCfg where
  signingkey : Option String := none
  commitGpgsign : Option String := none
  tagGpgsign : Option String := none
  userEmail : Option String := none
  userName : Option String := none
  githubUser : Option String := none
deriving DecidableEq, Repr

/-- The persisted JSON document (`~/.gpgkeymanager/gpgkeymanager.json`).
Each field is a key of the dict; `none` means the key is absent.  `json.dump`
followed by `json.load` round-trips such a dict exactly, so the file is
modelled as holding the record itself (see `FileState`). -/
structure LocalConfig where
  gpg_installed : Option Bool := none
  key_configured : Option Bool := none
  git_configured : Option Bool := none
  gpg_key_id : Option String := none
  github_key_added : Option Bool := none
  github_configured : Option Bool := none
  last_config_update : Option String := none
  git_email : Option String := none
  key_creation_time : Option String := none
deriving DecidableEq, Repr

/-- State of the config file: absent, present but not valid JSON, or holding
the serialization of a `LocalConfig` record. -/
inductive FileState where
  | absent
  | malformed
  | stored (c : LocalConfig)
deriving DecidableEq, Repr

/-- The mutable state a run can modify: global git configuration plus the
config file. -/
structure St where
  git : GitCfg
  file : FileState
deriving DecidableEq, Repr

/-- `GPGKeyManager.load_config`: returns the parsed JSON dict; an absent file
returns `{}`, a `json.JSONDecodeError` (malformed file) or any other failure
is caught and also yields `{}`. -/
def load_config : FileState → LocalConfig
  | .absent => {}
  | .malformed => {}
  | .stored c => c

/-- `GPGKeyManager.save_config`: `json.dump`s the dict over the file,
overwriting it wholesale (the `self.logger.info` call and the re-raise on an
I/O failure have no bearing on the resulting state modelled here). -/
def save_config (c : LocalConfig) : FileState :=
  .stored c

/-- `GPGKeyManager.update_key_config`: builds a fresh dict (the `name`,
`comment` and `expire` parameters are accepted but unused by the source) and
saves it. -/
def update_key_config (key_id name comment expire : String)
    (git_configured github_configured : Bool) : LocalConfig :=
  let _ := name
  let _ := comment
  let _ := expire
  { gpg_installed := some true
    key_configured := some true
    git_configured := some git_configured
    gpg_key_id := some key_id
    github_key_added := some github_configured }

/-- The record `clear_config` writes back via
`update_key_config('', '', '', '', False, False)`. -/
def unconfiguredRecord : LocalConfig :=
  update_key_config "" "" "" "" false false

/-- `GPGKeyManager.clear_config`: unsets the three git signing settings
(failures ignored, `check` not set), unlinks the config file, removes the
directory if empty (ignored on failure), then writes the explicit
unconfigured record through `update_key_config`.  The returned trace records
the git subprocess calls. -/
def clear_config (st : St) : St × List Eff :=
  ({ git := { st.git with signingkey := none, commitGpgsign := none, tagGpgsign := none }
     file := save_config unconfiguredRecord },
   [Eff.git ["config", "--global", "--unset", "user.signingkey"],
    Eff.git ["config", "--global", "--unset", "commit.gpgsign"],
    Eff.git ["config", "--global", "--unset", "tag.gpgsign"]])

/-- Builds a string back from its character list. -/
def strOf (l : List Char) : String :=
  ⟨l⟩

/-- Fuel-driven splitter on a (non-empty) separator sequence; the fuel is
instantiated with the input length plus one, which always suffices since
every step consumes at least one character.  (The library `String.splitOn`
is defined by well-founded recursion and does not evaluate inside the
kernel, so the embedding carries its own structural implementation.) -/
def splitOnFuel (sep : List Char) : Nat → List Char → List Char → List (List Char)
  | 0, acc, rest => [acc.reverse ++ rest]
  | _ + 1, acc, [] => [acc.reverse]
  | f + 1, acc, x :: xs =>
    if sep.isPrefixOf (x :: xs) then
      acc.reverse :: splitOnFuel sep f [] (List.drop sep.length (x :: xs))
    else
      splitOnFuel sep f (x :: acc) xs

/-- Python `s.split(sep)` for a non-empty separator. -/
def pySplitOn (s sep : String) : List String :=
  if sep.data.isEmpty then [s]
  else (splitOnFuel sep.data (s.data.length + 1) [] s.data).map strOf

/-- Splits a character list at every character satisfying `p`. -/
def splitPred (p : Char → Bool) : List Char → List (List Char)
  | [] => [[]]
  | x :: xs =>
    let r := splitPred p xs
    if p x then [] :: r
    else
      match r with
      | h :: t => (x :: h) :: t
      | [] => [[x]]

/-- Python `str.split()` with no argument: split on runs of whitespace,
discarding empty pieces. -/
def pySplitWs (s : String) : List String :=
  ((splitPred (fun c => c.isWhitespace) s.data).map strOf).filter (fun t => t ≠ "")

/-- Python `str.strip()`: remove leading and trailing whitespace. -/
def pyTrim (s : String) : String :=
  strOf (((s.data.dropWhile Char.isWhitespace).reverse.dropWhile Char.isWhitespace).reverse)

/-- Python `str.strip(chars)`: remove leading and trailing characters that
belong to `chars`. -/
def pyStripChars (chars : String) (s : String) : String :=
  strOf (((s.data.dropWhile (fun c => chars.data.elem c)).reverse.dropWhile
    (fun c => chars.data.elem c)).reverse)

/-- Python `str.startswith(pre)`. -/
def pyStartsWith (s pre : String) : Bool :=
  pre.data.isPrefixOf s.data

/-- Python `str.upper()` (ASCII, which covers fingerprints). -/
def pyUpper (s : String) : String :=
  strOf (s.data.map Char.toUpper)

/-- Python `str.lower()` (ASCII, which covers the y/n answer). -/
def pyLower (s : String) : String :=
  strOf (s.data.map Char.toLower)

/-- Python `s.replace(pat, rep)` for a non-empty pattern. -/
def pyReplace (s pat rep : String) : String :=
  if pat.data.isEmpty then s
  else strOf (List.intercalate rep.data (splitOnFuel pat.data (s.data.length + 1) [] s.data))

/-- Python `str.splitlines()` on subprocess stdout: like splitting on a
newline, but without a final empty piece for a trailing newline. -/
def pySplitlines (s : String) : List String :=
  let l := pySplitOn s "\n"
  if l.getLast? = some "" then l.dropLast else l

/-- `parts[-1]` of `s.split('/')` (the split list is never empty). -/
def lastSlash (s : String) : String :=
  (pySplitOn s "/").getLastD ""

/-- `parts[0]` of `s.split('/')`. -/
def headSlash (s : String) : String :=
  (pySplitOn s "/").headD ""

/-- `GPGKeyManager.check_gpg_installed`: runs `gpg --version` with
`check=True`; a `CalledProcessError` is caught and yields `False`, an
OS-level failure propagates. -/
def check_gpg_installed (w : World) : Except PyExc Bool × List Eff :=
  (match w.gpgVersion with
   | .exit c _ _ => if c = 0 then .ok true else .ok false
   | .oserror => .error .oserror,
   [Eff.gpg ["--version"]])

/-- The scan in `get_gpg_key_id`: first line starting with `sec` whose
whitespace split has more than one field; the key id is field 1 stripped of
square brackets, with any `algo/` prefix removed. -/
def parseSecLong : List String → Option String
  | [] => none
  | l :: ls =>
    if pyStartsWith l "sec" then
      let ps := pySplitWs l
      if ps.length > 1 then some (lastSlash (pyStripChars "[]" (ps.getD 1 "")))
      else parseSecLong ls
    else parseSecLong ls

/-- `GPGKeyManager.get_gpg_key_id`: lists secret keys in long key-id format;
a `CalledProcessError` is caught and yields `None`, an OS-level failure
propagates. -/
def get_gpg_key_id (w : World) : Except PyExc (Option String) × List Eff :=
  (match w.gpgListSecretLong with
   | .exit c out _ => if c = 0 then .ok (parseSecLong (pySplitOn out "\n")) else .ok none
   | .oserror => .error .oserror,
   [Eff.gpg ["--list-secret-keys", "--keyid-format=long"]])

/-- Python dict assignment `d[k] = v`: replace an existing binding in place,
otherwise append (insertion order preserved). -/
def setK (d : List (String × String)) (k v : String) : List (String × String) :=
  if (d.find? (fun p => p.1 = k)).isSome then
    d.map (fun p => if p.1 = k then (k, v) else p)
  else d ++ [(k, v)]

/-- One iteration of the line loop in `get_gpg_key_details`.  The state is
`(key_found, details)`; a `sec` line with more than one whitespace field whose
key id matches sets `key_found` and records the primary-key fields (indexing
fields 2 and 3 unconditionally, so a short matching line raises
`IndexError`); `uid` / `ssb` lines are only examined once `key_found` holds
(and `key_found` is never reset). -/
def detailsStep (key_id : String) (acc : Except PyExc (Bool × List (String × String)))
    (line : String) : Except PyExc (Bool × List (String × String)) :=
  match acc with
  | .error e => .error e
  | .ok (found, d) =>
    if pyStartsWith line "sec" then
      let ps := pySplitWs line
      if ps.length > 1 then
        let cur := lastSlash (pyStripChars "[]" (ps.getD 1 ""))
        if key_id = cur then
          match ps.get? 2, ps.get? 3 with
          | some sz, some cr =>
            .ok (true, setK (setK (setK (setK d "primary_key" cur)
              "primary_type" (headSlash (ps.getD 1 ""))) "primary_size" sz)
              "primary_created" cr)
          | _, _ => .error .indexError
        else .ok (found, d)
      else .ok (found, d)
    else if found && pyStartsWith line "uid" then
      let uidPart := pyTrim ((pySplitOn line "uid").getD 1 "")
      let owner := pyTrim ((pySplitOn uidPart "]").getLastD "")
      let nm := pyTrim ((pySplitOn owner "<").headD "")
      .ok (found, setK d "owner" nm)
    else if found && pyStartsWith line "ssb" then
      let ps := pySplitWs line
      if ps.length > 2 then
        let d := setK (setK d "subkey_type" (headSlash (ps.getD 1 ""))) "subkey_size" (ps.getD 2 "")
        let d := if ps.length > 3 then setK d "subkey_created" (ps.getD 3 "") else d
        .ok (found, d)
      else .ok (found, d)
    else .ok (found, d)

/-- `GPGKeyManager.get_gpg_key_details`: parses the long secret-key listing
into a details dict for the given key id; a `CalledProcessError` is caught
and yields `{}`, other failures propagate. -/
def get_gpg_key_details (w : World) (key_id : String) :
    Except PyExc (List (String × String)) × List Eff :=
  (match w.gpgListSecretLong with
   | .exit c out _ =>
     if c = 0 then
       ((pySplitOn out "\n").foldl (detailsStep key_id) (.ok (false, []))).map (fun p => p.2)
     else .ok []
   | .oserror => .error .oserror,
   [Eff.gpg ["--list-secret-keys", "--keyid-format=long"]])

/-- The fingerprint scan shared by `verify_github_key` and
`connect_to_github`: first stdout line starting with
`'      Key fingerprint = '`; the fingerprint is the text after the first
`=`, stripped.  Empty string if no such line exists. -/
def parseFprLong (out : String) : String :=
  match (pySplitOn out "\n").find? (fun l => pyStartsWith l "      Key fingerprint = ") with
  | some l => pyTrim ((pySplitOn l "=").getD 1 "")
  | none => ""

/-- `GPGKeyManager.verify_github_key`: exports the key and reads its
fingerprint, returning a three-entry dict whose `github_configured` entry is
the hard-coded `False` placeholder; a `CalledProcessError` from either
subprocess yields the empty-string variant of the same dict, while an
OS-level failure propagates. -/
def verify_github_key (w : World) (key_id : String) :
    Except PyExc (List (String × PyVal)) × List Eff :=
  let e1 := Eff.gpg ["--armor", "--export", key_id]
  let e2 := Eff.gpg ["--fingerprint", key_id]
  let emptyVariant : List (String × PyVal) :=
    [("public_key", .str ""), ("fingerprint", .str ""), ("github_configured", .bool false)]
  match w.gpgExport key_id with
  | .oserror => (.error .oserror, [e1])
  | .exit c pk _ =>
    if c = 0 then
      match w.gpgFingerprintLong key_id with
      | .oserror => (.error .oserror, [e1, e2])
      | .exit c2 fout _ =>
        if c2 = 0 then
          (.ok [("public_key", .str pk), ("fingerprint", .str (parseFprLong fout)),
                ("github_configured", .bool false)], [e1, e2])
        else (.ok emptyVariant, [e1, e2])
    else (.ok emptyVariant, [e1])

/-- `d['public_key']` on the dict returned by `verify_github_key` (always a
string there), as consumed by `check_gpg_status`. -/
def dictPk (d : List (String × PyVal)) : String :=
  match d.find? (fun p => p.1 = "public_key") with
  | some (_, .str s) => s
  | _ => ""

/-- The status dictionary assembled by `check_gpg_status`; `none` marks a key
the code did not insert on that path. -/
structure Status where
  error : Option String := none
  gpg_installed : Option Bool := none
  key_configured : Option Bool := none
  git_configured : Option Bool := none
  github_configured : Option Bool := none
  key_details : Option (List (String × String)) := none
  public_key : Option PyVal := none
  github_key_added : Option Bool := none
  last_update : Option (Option String) := none
deriving DecidableEq, Repr

/-- The dictionary `check_gpg_status` returns from its outer exception
handler. -/
def errorStatus (e : PyExc) : Status :=
  { error := some (pyExcMsg e)
    gpg_installed := some false
    key_configured := some false
    git_configured := some false
    github_configured := some false
    key_details := some []
    github_key_added := some false
    last_update := some none }

/-- `GPGKeyManager.check_gpg_status`: the status aggregator.  When gpg is
reported installed, it looks for a secret key; when one exists it fills in
key details, compares the global `user.signingkey` with the key id (a
`CalledProcessError` from the unset setting is passed over), runs the GitHub
sub-check with its own catch-all that downgrades any exception to
`github_configured = False`, and merges the cached `github_key_added` /
`last_config_update` fields from the config file.  Any exception escaping
the earlier steps is caught by the outer handler and yields `errorStatus`. -/
def check_gpg_status (w : World) (st : St) : Status × List Eff :=
  match (check_gpg_installed w).1 with
  | .error e => (errorStatus e, (check_gpg_installed w).2)
  | .ok false => ({ gpg_installed := some false }, (check_gpg_installed w).2)
  | .ok true =>
    match (get_gpg_key_id w).1 with
    | .error e => (errorStatus e, (check_gpg_installed w).2 ++ (get_gpg_key_id w).2)
    | .ok none => ({ gpg_installed := some true },
        (check_gpg_installed w).2 ++ (get_gpg_key_id w).2)
    | .ok (some key_id) =>
      match (get_gpg_key_details w key_id).1 with
      | .error e => (errorStatus e,
          (check_gpg_installed w).2 ++ (get_gpg_key_id w).2 ++ (get_gpg_key_details w key_id).2)
      | .ok det =>
        let gitConfigured : Option Bool :=
          match st.git.signingkey with
          | some sk => if pyTrim sk = key_id then some true else none
          | none => none
        let gh : Option PyVal × Option Bool :=
          match (verify_github_key w key_id).1 with
          | .ok d => (some (.str ("\n" ++ dictPk d)), some (!d.isEmpty))
          | .error _ => (some (.dict []), some false)
        let cfg := load_config st.file
        ({ gpg_installed := some true
           key_configured := some true
           key_details := some det
           git_configured := gitConfigured
           public_key := gh.1
           github_configured := gh.2
           github_key_added := some (cfg.github_key_added.getD false)
           last_update := some cfg.last_config_update },
         (check_gpg_installed w).2 ++ (get_gpg_key_id w).2 ++ (get_gpg_key_details w key_id).2
           ++ [Eff.git ["config", "--get", "user.signingkey"]]
           ++ (verify_github_key w key_id).2)

/-- The fingerprint-resolution loop in `delete_gpg_key`: first stdout line
starting with `fpr:`, field 9 of its colon split (`IndexError` if the line
has fewer than ten fields); `none` if no such line exists. -/
def resolveFpr (out : String) : Except PyExc (Option String) :=
  match (pySplitOn out "\n").find? (fun l => pyStartsWith l "fpr:") with
  | none => .ok none
  | some l =>
    match (pySplitOn l ":").get? 9 with
    | some f => .ok (some f)
    | none => .error .indexError

/-- `GPGKeyManager.delete_gpg_key`: resolves the key id to a fingerprint via
`gpg --list-keys --with-colons`, raises `ValueError` (re-raised as a
`RuntimeError` with that message) when no fingerprint is found, deletes
secret and public material by that fingerprint, unsets
`user.signingkey` / `user.email` / `user.name`, and runs `clear_config`.
A `CalledProcessError` from either gpg call becomes a `RuntimeError`
carrying that call's stderr. -/
def delete_gpg_key (w : World) (st : St) (key_id : String) :
    (Except String Bool × St) × List Eff :=
  let e1 := Eff.gpg ["--list-keys", "--with-colons", key_id]
  match w.gpgListKeysColons key_id with
  | .oserror => ((.error ("Failed to delete GPG key: " ++ pyExcMsg .oserror), st), [e1])
  | .exit c out err =>
    if c = 0 then
      match resolveFpr out with
      | .error e => ((.error ("Failed to delete GPG key: " ++ pyExcMsg e), st), [e1])
      | .ok fo =>
        if fo.getD "" = "" then
          ((.error ("Failed to delete GPG key: Could not find fingerprint for key " ++ key_id),
            st), [e1])
        else
          let fpr := fo.getD ""
          let e2 := Eff.gpg ["--batch", "--yes", "--delete-secret-and-public-key", fpr]
          match w.gpgDelete fpr with
          | .oserror =>
            ((.error ("Failed to delete GPG key: " ++ pyExcMsg .oserror), st), [e1, e2])
          | .exit dc _ derr =>
            if dc = 0 then
              let st1 : St :=
                { st with git := { st.git with signingkey := none, userEmail := none,
                                               userName := none } }
              let (st2, ceff) := clear_config st1
              ((.ok true, st2),
               [e1, e2,
                Eff.git ["config", "--global", "--unset", "user.signingkey"],
                Eff.git ["config", "--global", "--unset", "user.email"],
                Eff.git ["config", "--global", "--unset", "user.name"]] ++ ceff)
            else ((.error ("Failed to delete GPG key: " ++ derr), st), [e1, e2])
    else ((.error ("Failed to delete GPG key: " ++ err), st), [e1])

/-- `GPGKeyManager.configure_git`: sets the global signing key and enables
commit signing (git assumed runnable; a failing sub-step would return
`False`, which no claim here depends on). -/
def configure_git (st : St) (key_id : String) : Bool × St :=
  (true, { st with git := { st.git with signingkey := some key_id,
                                        commitGpgsign := some "true" } })

/-- One record assembled by the parsing loop of `list_gpg_keys`. -/
structure GKey where
  type : String
  key_id : String
  created : String
  expires : String
  uid : String
  status : String
deriving DecidableEq, Repr

/-- One iteration of the line loop in `list_gpg_keys`: empty lines are
skipped; a `sec` line closes the open record and opens a new one from colon
fields 4, 5 and 6 (`IndexError` when absent); a `uid` line fills fields 9 and
1 of the open record. -/
def lgkStep (acc : Except PyExc (Option GKey × List GKey)) (line : String) :
    Except PyExc (Option GKey × List GKey) :=
  match acc with
  | .error e => .error e
  | .ok (cur, ks) =>
    if line = "" then .ok (cur, ks)
    else
      let ps := pySplitOn line ":"
      if ps.headD "" = "sec" then
        let ks2 := match cur with
          | some k => ks ++ [k]
          | none => ks
        match ps.get? 4, ps.get? 5, ps.get? 6 with
        | some a, some b, some c =>
          .ok (some { type := "secret", key_id := a, created := b, expires := c,
                      uid := "", status := "" }, ks2)
        | _, _, _ => .error .indexError
      else if ps.headD "" = "uid" then
        match cur with
        | some k =>
          match ps.get? 9, ps.get? 1 with
          | some u, some s => .ok (some { k with uid := u, status := s }, ks)
          | _, _ => .error .indexError
        | none => .ok (cur, ks)
      else .ok (cur, ks)

/-- `GPGKeyManager.list_gpg_keys`: parses the colon-format secret-key listing
and prints it (together with a per-key git comparison), but is annotated
`-> None` and returns `None` on every successful path — both when no keys
were found and when the listing was printed.  A `CalledProcessError` from
gpg is logged and then re-`raise`d; an OS-level failure propagates.  The
parsed list is built and then discarded. -/
def list_gpg_keys (w : World) : Except PyExc (Option (List GKey)) :=
  match w.gpgListSecretColons with
  | .oserror => .error .oserror
  | .exit c out err =>
    if c = 0 then
      match (pySplitOn out "\n").foldl lgkStep (.ok (none, [])) with
      | .error e => .error e
      | .ok (cur, ks) =>
        let _keys := match cur with
          | some k => ks ++ [k]
          | none => ks
        .ok none
    else .error (.calledProcessError err)

/-- `GPGKeyManager.git_config`: binds `keys = self.list_gpg_keys()` and
returns `False` when `keys` is falsy.  Since `list_gpg_keys` returns `None`
on every successful path, the guard always fires; in the remaining (dead)
branch the very first menu line reads `key['length']`, a key absent from
every record the parser builds, so the `KeyError` would land in the outer
`except Exception` handler and also return `False`. -/
def git_config (w : World) (st : St) : Bool × St :=
  match list_gpg_keys w with
  | .error _ => (false, st)
  | .ok none => (false, st)
  | .ok (some ks) =>
    if ks.isEmpty then (false, st)
    else (false, st)

/-- `GPGKeyManager.connect_to_github` (the flow `GPG-KeyManager.py` invokes
for `-cg`): reads key details, exports the key, parses the fingerprint from
the human-readable listing, prompts for a PAT, validates it with
`GET /user/gpg_keys` (401/403 abort), compares fingerprints
case-insensitively, uploads when absent (403 / non-201 abort), sleeps, and
re-checks existence.  Every failure path returns `False`; no path touches
the git configuration or the config file, so the state passes through
unchanged. -/
def connect_to_github (w : World) (st : St) (key_id : String) : Bool × St :=
  match (get_gpg_key_details w key_id).1 with
  | .error _ => (false, st)
  | .ok det =>
    if det.isEmpty then (false, st)
    else
      match w.gpgExport key_id with
      | .oserror => (false, st)
      | .exit c pk _ =>
        if c = 0 then
          match w.gpgFingerprintLong key_id with
          | .oserror => (false, st)
          | .exit c2 fout _ =>
            if c2 = 0 then
              let publicKey := pyTrim pk
              let fingerprint := parseFprLong fout
              let _pat := w.patInput
              match w.getUserGpgKeys with
              | .exc _ => (false, st)
              | .resp status keys _ =>
                if status = 401 then (false, st)
                else if status = 403 then (false, st)
                else
                  let keyExists :=
                    keys.any (fun k => pyUpper k.fingerprint = pyUpper fingerprint)
                  if keyExists then (true, st)
                  else
                    let _body := publicKey
                    match w.postUserGpgKeys with
                    | .exc _ => (false, st)
                    | .resp ps _ _ =>
                      if ps = 403 then (false, st)
                      else if ps = 201 then
                        match w.getUserGpgKeys2 with
                        | .exc _ => (false, st)
                        | .resp _ keys2 _ =>
                          if keys2.any (fun k => pyUpper k.fingerprint = pyUpper fingerprint)
                          then (true, st)
                          else (false, st)
                      else (false, st)
            else (false, st)
        else (false, st)

/-- The fingerprint/uid loop in `connect_github` over
`gpg --with-colons --fingerprint` output: every `fpr:` line overwrites the
fingerprint with colon field 9 (`IndexError` when absent — the loop does not
break), and every `uid:` line with at least ten fields overwrites the uid
name.  Starts from `("", "Unknown")`. -/
def parseFprColons (out : String) : Except PyExc (String × String) :=
  (pySplitlines out).foldl
    (fun acc line =>
      match acc with
      | .error e => .error e
      | .ok (fpr, uid) =>
        if pyStartsWith line "fpr:" then
          match (pySplitOn line ":").get? 9 with
          | some f => .ok (f, uid)
          | none => .error .indexError
        else if pyStartsWith line "uid:" then
          let ps := pySplitOn line ":"
          if ps.length ≥ 10 then .ok (fpr, ps.getD 9 "") else .ok (fpr, uid)
        else .ok (fpr, uid))
    (.ok ("", "Unknown"))

/-- The GitHub-username lookup in `connect_github`: global `github.user`,
falling back to `user.name` (a `CalledProcessError` from an unset setting is
ignored), falling back to an interactive prompt; each candidate stripped. -/
def github_username_lookup (st : St) (w : World) : String :=
  let u1 := match st.git.githubUser with
    | some v => pyTrim v
    | none => ""
  let u2 := if u1 = "" then
      match st.git.userName with
      | some v => pyTrim v
      | none => ""
    else u1
  if u2 = "" then pyTrim w.usernameInput else u2

/-- The config update `connect_github` performs on both of its success
paths: load, set `github_key_added` / `github_configured` to true, stamp
`last_config_update`, save. -/
def connectGithubConfigUpdate (w : World) (st : St) : St :=
  let c := load_config st.file
  let c2 := { c with github_key_added := some true
                     github_configured := some true
                     last_config_update := some w.nowIso }
  { st with file := save_config c2 }

/-- `GPGKeyManager.connect_github` (currently only reachable from
commented-out driver code): prompts for a token (empty token aborts), finds
the first secret key id, reads fingerprint and uid from the colon listing (a
`CalledProcessError` there is re-raised as `RuntimeError` carrying its
stderr), resolves a GitHub username, exports the key (a
`CalledProcessError` here returns `False`), shows instructions and a
countdown, then asks for confirmation under a 30-second alarm: a timeout or
any answer other than `y` returns `False` without touching any state.  On
`y` it checks `GET /users/{username}/gpg_keys` for the key id (hit: persist
and return `True`), otherwise `POST`s the key: 201 persists and returns
`True`, anything else returns `False`.  A `requests.RequestException` or
other unexpected exception is re-raised as `RuntimeError`. -/
def connect_github (w : World) (st : St) : Except String Bool × St :=
  let token := pyTrim w.tokenInput
  if token = "" then (.ok false, st)
  else
    match (get_gpg_key_id w).1 with
    | .error e => (.error ("Failed to connect to GitHub: " ++ pyExcMsg e), st)
    | .ok none => (.ok false, st)
    | .ok (some key_id) =>
      match w.gpgFingerprintColons key_id with
      | .oserror => (.error ("Failed to connect to GitHub: " ++ pyExcMsg .oserror), st)
      | .exit c out err =>
        if c = 0 then
          match parseFprColons out with
          | .error e => (.error ("Failed to connect to GitHub: " ++ pyExcMsg e), st)
          | .ok pr =>
            let _fingerprint := pr.1
            let _uidName := pr.2
            let username := github_username_lookup st w
            if username = "" then (.ok false, st)
            else
              match w.gpgExportBatch key_id with
              | .oserror => (.error ("Failed to connect to GitHub: " ++ pyExcMsg .oserror), st)
              | .exit ce pkOut _ =>
                if ce = 0 then
                  let publicKey := pyTrim pkOut
                  let keyIdHex := pyReplace (pyReplace key_id " " "") "/" ""
                  match w.confirmInput with
                  | .timeout => (.ok false, st)
                  | .line inp =>
                    let ui := pyLower inp
                    if ui = "y" then
                      match w.getUsersGpgKeys username with
                      | .exc m => (.error ("Failed to connect to GitHub: " ++ m), st)
                      | .resp s keys _ =>
                        if s = 200 && keys.any (fun k => k.key_id = keyIdHex) then
                          (.ok true, connectGithubConfigUpdate w st)
                        else
                          let _body := publicKey
                          match w.postUserGpgKeys with
                          | .exc m => (.error ("Failed to connect to GitHub: " ++ m), st)
                          | .resp ps _ _ =>
                            if ps = 201 then (.ok true, connectGithubConfigUpdate w st)
                            else (.ok false, st)
                    else if ui = "n" then (.ok false, st)
                    else (.ok false, st)
                else (.ok false, st)
        else (.error ("Failed to connect to GitHub: " ++ err), st)

/-- Sample long-format secret-key listing (one key with uid and subkey). -/
def secLongSample : String :=
  "sec   rsa4096/ABC123 2024-01-01 [SC]\nuid           [ultimate] Jane Doe <jane@example.com>\nssb   rsa4096/DEF456 2024-01-01 [E]\n"

/-- Sample human-readable fingerprint listing. -/
def fprLongSample : String :=
  "pub   rsa4096 2024-01-01 [SC]\n      Key fingerprint = AAAA BBBB\nuid           [ultimate] Jane Doe <jane@example.com>\n"

/-- Sample colon-format fingerprint listing. -/
def fprColonsSample : String :=
  "fpr:::::::::AAAABBBB:\nuid:u::::::::Jane Doe <jane@example.com>::\n"

/-- Sample colon-format public-key listing used by fingerprint resolution. -/
def listKeysColonsSample : String :=
  "pub:u:4096:1:ABC123:1700000000:0::u:::scESC::::::23::0:\nfpr:::::::::AAAABBBB:\nuid:u::::1700000000::HASH::Jane Doe <jane@example.com>::::::::::0:\n"

/-- A benign concrete environment used by the closed witness theorems. -/
def baseWorld : World :=
  { gpgVersion := .exit 0 "gpg (GnuPG) 2.4.0" ""
    gpgListSecretLong := .exit 0 secLongSample ""
    gpgListSecretColons := .exit 0 "" ""
    gpgExport := fun _ => .exit 0 "PUBKEYBLOCK" ""
    gpgExportBatch := fun _ => .exit 0 "PUBKEYBLOCK" ""
    gpgFingerprintLong := fun _ => .exit 0 fprLongSample ""
    gpgFingerprintColons := fun _ => .exit 0 fprColonsSample ""
    gpgListKeysColons := fun _ => .exit 0 listKeysColonsSample ""
    gpgDelete := fun _ => .exit 0 "" ""
    patInput := "tok"
    tokenInput := "tok"
    usernameInput := "octocat"
    confirmInput := .line "y"
    getUserGpgKeys := .resp 200 [] ""
    postUserGpgKeys := .resp 201 [] ""
    getUserGpgKeys2 := .resp 200 [{ fingerprint := "AAAA BBBB", key_id := "" }] ""
    getUsersGpgKeys := fun _ => .resp 200 [] ""
    nowIso := "2026-10-12T00:00:00" }

/-- A concrete starting state: nothing configured, no config file. -/
def baseSt : St :=
  { git := {}, file := .absent }

/-- A starting state with a configured signing key and a populated config
file, used to exhibit the behaviour of `clear_config`. -/
def c1St : St :=
  { git := { signingkey := some "ABC123", commitGpgsign := some "true" }
    file := .stored { gpg_key_id := some "ABC123", git_configured := some true } }

/-- C1 (counterexample): the claim says `clear_config` followed by
`load_config` yields an empty record and `user.signingkey` reads empty.
At this concrete state the signing key is indeed unset afterwards, but the
load yields the non-empty unconfigured record that `clear_config` wrote back
through `update_key_config`, so the conjunction is false. -/
theorem c1_counterexample :
    ¬ (load_config (clear_config c1St).1.file = ({} : LocalConfig) ∧
       ((clear_config c1St).1.git.signingkey.getD "") = "") := by
  decide

/-- C1 (amended): after `clear_config` completes, `load_config` yields the
explicit unconfigured record `update_key_config('', '', '', '', False,
False)` wrote (`gpg_installed = true`, `key_configured = true`,
`git_configured = false`, `gpg_key_id = ''`, `github_key_added = false`)
rather than the empty record, and the global git signing settings are
unset, so reading `user.signingkey` afterwards yields empty. -/
theorem c1_clear_writes_unconfigured (st : St) :
    load_config (clear_config st).1.file = unconfiguredRecord ∧
    unconfiguredRecord ≠ ({} : LocalConfig) ∧
    (clear_config st).1.git.signingkey = none ∧
    (clear_config st).1.git.commitGpgsign = none ∧
    (clear_config st).1.git.tagGpgsign = none := by
  exact ⟨rfl, by decide, rfl, rfl, rfl⟩

/-- C10: the Local Config Store round-trips — saving a freshly loaded record
and loading again yields the record of the first load, and loading an absent
or malformed file yields the empty record rather than an error. -/
theorem c10_config_round_trip (fs : FileState) :
    load_config (save_config (load_config fs)) = load_config fs ∧
    load_config FileState.absent = ({} : LocalConfig) ∧
    load_config FileState.malformed = ({} : LocalConfig) := by
  refine ⟨?_, rfl, rfl⟩
  cases fs <;> rfl

/-- C4: contrary to the claim, `list_gpg_keys` never returns a sequence of
key records: on a successful listing — including the zero-key listing, whose
stdout is empty — it prints and returns `None`, and on a failing gpg
invocation it re-raises the `CalledProcessError` instead of returning. -/
theorem c4_list_keys_returns_none (w : World) :
    (w.gpgListSecretColons = ProcOut.exit 0 "" "" →
       list_gpg_keys w = Except.ok none ∧ list_gpg_keys w ≠ Except.ok (some [])) ∧
    (∀ c out err, w.gpgListSecretColons = ProcOut.exit c out err → c ≠ 0 →
       list_gpg_keys w = Except.error (PyExc.calledProcessError err)) := by
  constructor
  · intro h
    unfold list_gpg_keys
    rw [h]
    exact ⟨rfl, by decide⟩
  · intro c out err h hc
    unfold list_gpg_keys
    rw [h]
    simp [hc]

/-- C4 (witness): the zero-key listing evaluated concretely. -/
theorem c4_witness :
    list_gpg_keys { baseWorld with gpgListSecretColons := ProcOut.exit 0 "" "" } =
      Except.ok none ∧
    list_gpg_keys { baseWorld with gpgListSecretColons := ProcOut.exit 0 "" "" } ≠
      Except.ok (some []) :=
  (c4_list_keys_returns_none
    { baseWorld with gpgListSecretColons := ProcOut.exit 0 "" "" }).1 rfl

/-- C7: `git_config` can never succeed in configuring Git: it binds
`keys = self.list_gpg_keys()`, which returns `None` on every successful
path, so the `if not keys` guard always returns `False` before any git
write or config save, leaving the state untouched.  The claim's success
branch (which would save `github_configured = True` with a fresh
`last_config_update`) is unreachable. -/
theorem c7_git_config_never_succeeds (w : World) (st : St) :
    git_config w st = (false, st) := by
  unfold git_config
  cases h : list_gpg_keys w with
  | error e => rfl
  | ok o =>
    cases o with
    | none => rfl
    | some ks => by_cases hk : ks.isEmpty <;> simp [hk]

/-- C5: when the tool-installed probe reports gpg missing, the status
snapshot carries `gpg_installed = false` with `key_configured`,
`git_configured` and `github_configured` absent, and the only external call
of the whole status run is the `gpg --version` probe — no git subprocess and
no network request is attempted. -/
theorem c5_not_installed_short_circuit (w : World) (st : St)
    (h : (check_gpg_installed w).1 = Except.ok false) :
    (check_gpg_status w st).1.gpg_installed = some false ∧
    (check_gpg_status w st).1.key_configured = none ∧
    (check_gpg_status w st).1.git_configured = none ∧
    (check_gpg_status w st).1.github_configured = none ∧
    (check_gpg_status w st).2 = [Eff.gpg ["--version"]] ∧
    (∀ e ∈ (check_gpg_status w st).2, e.isGit = false ∧ e.isNet = false) := by
  unfold check_gpg_status
  rw [h]
  refine ⟨rfl, rfl, rfl, rfl, rfl, ?_⟩
  intro e he
  simp [check_gpg_installed] at he
  subst he
  exact ⟨rfl, rfl⟩

/-- C5 (witness): a concrete environment where `gpg --version` exits 1. -/
theorem c5_witness :
    (check_gpg_status { baseWorld with gpgVersion := ProcOut.exit 1 "" "" } baseSt).1.gpg_installed
        = some false ∧
    (check_gpg_status { baseWorld with gpgVersion := ProcOut.exit 1 "" "" } baseSt).1.key_configured
        = none ∧
    (check_gpg_status { baseWorld with gpgVersion := ProcOut.exit 1 "" "" } baseSt).1.git_configured
        = none ∧
    (check_gpg_status { baseWorld with gpgVersion := ProcOut.exit 1 "" "" } baseSt).1.github_configured
        = none ∧
    (check_gpg_status { baseWorld with gpgVersion := ProcOut.exit 1 "" "" } baseSt).2
        = [Eff.gpg ["--version"]] ∧
    (∀ e ∈ (check_gpg_status { baseWorld with gpgVersion := ProcOut.exit 1 "" "" } baseSt).2,
       e.isGit = false ∧ e.isNet = false) :=
  c5_not_installed_short_circuit { baseWorld with gpgVersion := ProcOut.exit 1 "" "" } baseSt rfl

set_option maxRecDepth 8192 in
/-- C3 (counterexample): the claim's universal "`verify_github_key` never
raises" and "whenever a secret key is found, `github_configured` is set to
true" are both false: its `except subprocess.CalledProcessError` clause does
not catch OS-level failures, so when the export subprocess fails at the OS
level `verify_github_key` raises instead of returning a dictionary — and in
exactly that run `check_gpg_status` finds a secret key
(`key_configured = true`) yet records `github_configured = false`. -/
theorem c3_counterexample :
    (verify_github_key { baseWorld with gpgExport := fun _ => ProcOut.oserror } "ABC123").1
      = Except.error PyExc.oserror ∧
    (check_gpg_status { baseWorld with gpgExport := fun _ => ProcOut.oserror }
      baseSt).1.key_configured = some true ∧
    (check_gpg_status { baseWorld with gpgExport := fun _ => ProcOut.oserror }
      baseSt).1.github_configured = some false ∧
    (check_gpg_status { baseWorld with gpgExport := fun _ => ProcOut.oserror }
      baseSt).1.github_configured ≠ some true := by
  refine ⟨rfl, rfl, rfl, by decide⟩

/-- C3 (amended): restricted to runs in which the two gpg subprocesses of
`verify_github_key` complete — possibly with a non-zero exit, since a
`CalledProcessError` is caught and yields the empty-string variant, whereas
an OS-level failure raises (see the counterexample).  In such runs
`verify_github_key` returns a dictionary whose keys are exactly
`public_key`, `fingerprint` and `github_configured`, the latter bound to
`False`.  Consequently, when `check_gpg_status` finds a secret key (and the
details lookup for it succeeds), the snapshot's `github_configured` flag is
`bool(...)` of that never-empty dictionary — `true` regardless of any
actual GitHub state and of the `False` stored inside the dictionary. -/
theorem c3_verify_shape_and_status (w : World) (st : St) (kid : String)
    (hx : w.gpgExport kid ≠ ProcOut.oserror)
    (hf : w.gpgFingerprintLong kid ≠ ProcOut.oserror) :
    (∃ d, (verify_github_key w kid).1 = Except.ok d ∧
       d.map (fun p => p.1) = ["public_key", "fingerprint", "github_configured"] ∧
       (d.find? (fun p => p.1 = "github_configured")).map (fun p => p.2) =
         some (PyVal.bool false)) ∧
    ((check_gpg_installed w).1 = Except.ok true →
     (get_gpg_key_id w).1 = Except.ok (some kid) →
     (∃ det, (get_gpg_key_details w kid).1 = Except.ok det) →
     (check_gpg_status w st).1.github_configured = some true) := by
  have hmain : ∃ d, (verify_github_key w kid).1 = Except.ok d ∧
      d.map (fun p => p.1) = ["public_key", "fingerprint", "github_configured"] ∧
      (d.find? (fun p => p.1 = "github_configured")).map (fun p => p.2) =
        some (PyVal.bool false) := by
    cases hp : w.gpgExport kid with
    | oserror => exact absurd hp hx
    | exit c pk e =>
      by_cases hc : c = 0
      · cases hq : w.gpgFingerprintLong kid with
        | oserror => exact absurd hq hf
        | exit c2 fo e2 =>
          by_cases hc2 : c2 = 0
          · exact ⟨[("public_key", .str pk), ("fingerprint", .str (parseFprLong fo)),
              ("github_configured", .bool false)],
              by simp [verify_github_key, hp, hq, hc, hc2], rfl, rfl⟩
          · exact ⟨[("public_key", .str ""), ("fingerprint", .str ""),
              ("github_configured", .bool false)],
              by simp [verify_github_key, hp, hq, hc, hc2], rfl, rfl⟩
      · exact ⟨[("public_key", .str ""), ("fingerprint", .str ""),
          ("github_configured", .bool false)],
          by simp [verify_github_key, hp, hc], rfl, rfl⟩
  refine ⟨hmain, ?_⟩
  intro h1 h2 h3
  obtain ⟨det, hdet⟩ := h3
  obtain ⟨d, hd, hkeys, _⟩ := hmain
  simp only [check_gpg_status, h1, h2, hdet, hd]
  cases d with
  | nil => simp at hkeys
  | cons a as => rfl

/-- C3 (witness): the amended claim at the concrete environment with one
secret key, where both gpg subprocesses complete. -/
theorem c3_witness :
    (∃ d, (verify_github_key baseWorld "ABC123").1 = Except.ok d ∧
       d.map (fun p => p.1) = ["public_key", "fingerprint", "github_configured"] ∧
       (d.find? (fun p => p.1 = "github_configured")).map (fun p => p.2) =
         some (PyVal.bool false)) ∧
    ((check_gpg_installed baseWorld).1 = Except.ok true →
     (get_gpg_key_id baseWorld).1 = Except.ok (some "ABC123") →
     (∃ det, (get_gpg_key_details baseWorld "ABC123").1 = Except.ok det) →
     (check_gpg_status baseWorld baseSt).1.github_configured = some true) :=
  c3_verify_shape_and_status baseWorld baseSt "ABC123" (by decide) (by decide)

/-- C8: if the GitHub sub-check inside `check_gpg_status` raises, the
exception is caught by the sub-check's own handler and downgraded to
`github_configured = false` (with `public_key` set to the empty dict), and
the operation still returns the normal snapshot — `gpg_installed` and
`key_configured` keep their values and no `error` key is present. -/
theorem c8_github_subcheck_downgraded (w : World) (st : St) (kid : String) (ex : PyExc)
    (h1 : (check_gpg_installed w).1 = Except.ok true)
    (h2 : (get_gpg_key_id w).1 = Except.ok (some kid))
    (h3 : ∃ det, (get_gpg_key_details w kid).1 = Except.ok det)
    (h4 : (verify_github_key w kid).1 = Except.error ex) :
    (check_gpg_status w st).1.github_configured = some false ∧
    (check_gpg_status w st).1.gpg_installed = some true ∧
    (check_gpg_status w st).1.key_configured = some true ∧
    (check_gpg_status w st).1.error = none ∧
    (check_gpg_status w st).1.public_key = some (PyVal.dict []) := by
  obtain ⟨det, hdet⟩ := h3
  simp [check_gpg_status, h1, h2, hdet, h4]

set_option maxRecDepth 8192 in
/-- C8 (witness): an environment where the export inside the GitHub
sub-check fails at the OS level, so `verify_github_key` raises. -/
theorem c8_witness :
    (check_gpg_status { baseWorld with gpgExport := fun _ => ProcOut.oserror } baseSt).1.github_configured
        = some false ∧
    (check_gpg_status { baseWorld with gpgExport := fun _ => ProcOut.oserror } baseSt).1.gpg_installed
        = some true ∧
    (check_gpg_status { baseWorld with gpgExport := fun _ => ProcOut.oserror } baseSt).1.key_configured
        = some true ∧
    (check_gpg_status { baseWorld with gpgExport := fun _ => ProcOut.oserror } baseSt).1.error
        = none ∧
    (check_gpg_status { baseWorld with gpgExport := fun _ => ProcOut.oserror } baseSt).1.public_key
        = some (PyVal.dict []) :=
  c8_github_subcheck_downgraded { baseWorld with gpgExport := fun _ => ProcOut.oserror }
    baseSt "ABC123" PyExc.oserror rfl rfl ⟨_, rfl⟩ rfl

/-- C6: the deletion contract.  (1) On success the key id is first resolved
to a fingerprint (the listing call heads the trace) and the only deletion
command ever issued names exactly that fingerprint; afterwards the git
signing settings are unset and the config store holds the cleared record.
(2) When no fingerprint can be found the operation fails with the distinct
`Could not find fingerprint` error and the state is untouched.  (3, 4) A
failing gpg call — listing or deletion — fails with an error carrying that
call's stderr, leaving the state untouched. -/
theorem c6_delete_key_contract (w : World) (st : St) (kid : String) :
    (∀ out err fpr dso dse,
       w.gpgListKeysColons kid = ProcOut.exit 0 out err →
       resolveFpr out = Except.ok (some fpr) → fpr ≠ "" →
       w.gpgDelete fpr = ProcOut.exit 0 dso dse →
       (delete_gpg_key w st kid).1.1 = Except.ok true ∧
       (delete_gpg_key w st kid).1.2.git.signingkey = none ∧
       (delete_gpg_key w st kid).1.2.git.commitGpgsign = none ∧
       (delete_gpg_key w st kid).1.2.git.tagGpgsign = none ∧
       (delete_gpg_key w st kid).1.2.file = FileState.stored unconfiguredRecord ∧
       (delete_gpg_key w st kid).2.head? =
         some (Eff.gpg ["--list-keys", "--with-colons", kid]) ∧
       Eff.gpg ["--batch", "--yes", "--delete-secret-and-public-key", fpr] ∈
         (delete_gpg_key w st kid).2 ∧
       (∀ f2, Eff.gpg ["--batch", "--yes", "--delete-secret-and-public-key", f2] ∈
          (delete_gpg_key w st kid).2 → f2 = fpr)) ∧
    (∀ out err fo,
       w.gpgListKeysColons kid = ProcOut.exit 0 out err →
       resolveFpr out = Except.ok fo → fo.getD "" = "" →
       (delete_gpg_key w st kid).1.1 =
         Except.error ("Failed to delete GPG key: Could not find fingerprint for key " ++ kid) ∧
       (delete_gpg_key w st kid).1.2 = st) ∧
    (∀ c out err,
       w.gpgListKeysColons kid = ProcOut.exit c out err → c ≠ 0 →
       (delete_gpg_key w st kid).1.1 = Except.error ("Failed to delete GPG key: " ++ err) ∧
       (delete_gpg_key w st kid).1.2 = st) ∧
    (∀ out err fpr dc dso dse,
       w.gpgListKeysColons kid = ProcOut.exit 0 out err →
       resolveFpr out = Except.ok (some fpr) → fpr ≠ "" →
       w.gpgDelete fpr = ProcOut.exit dc dso dse → dc ≠ 0 →
       (delete_gpg_key w st kid).1.1 = Except.error ("Failed to delete GPG key: " ++ dse) ∧
       (delete_gpg_key w st kid).1.2 = st) := by
  refine ⟨?_, ?_, ?_, ?_⟩
  · intro out err fpr dso dse h1 h2 h3 h4
    simp only [delete_gpg_key, clear_config, save_config, h1, h2, h4, Option.getD_some]
    simp only [if_neg h3, reduceIte]
    refine ⟨by trivial, by trivial, by trivial, by trivial, by trivial, by trivial,
      by simp, ?_⟩
    intro f2 hf2
    simp at hf2
    exact hf2
  · intro out err fo h1 h2 h3
    simp only [delete_gpg_key, h1, h2, h3]
    constructor <;> trivial
  · intro c out err h1 hc
    simp only [delete_gpg_key, h1]
    simp only [if_neg hc]
    constructor <;> trivial
  · intro out err fpr dc dso dse h1 h2 h3 h4 hdc
    simp only [delete_gpg_key, h1, h2, h4, Option.getD_some]
    simp only [if_neg h3, if_neg hdc, reduceIte]
    constructor <;> trivial

set_option maxRecDepth 8192 in
/-- C6 (witness): a concrete successful deletion run. -/
theorem c6_witness :
    (delete_gpg_key baseWorld baseSt "ABC123").1.1 = Except.ok true ∧
    (delete_gpg_key baseWorld baseSt "ABC123").1.2.git.signingkey = none ∧
    (delete_gpg_key baseWorld baseSt "ABC123").1.2.git.commitGpgsign = none ∧
    (delete_gpg_key baseWorld baseSt "ABC123").1.2.git.tagGpgsign = none ∧
    (delete_gpg_key baseWorld baseSt "ABC123").1.2.file = FileState.stored unconfiguredRecord ∧
    (delete_gpg_key baseWorld baseSt "ABC123").2.head? =
      some (Eff.gpg ["--list-keys", "--with-colons", "ABC123"]) ∧
    Eff.gpg ["--batch", "--yes", "--delete-secret-and-public-key", "AAAABBBB"] ∈
      (delete_gpg_key baseWorld baseSt "ABC123").2 ∧
    (∀ f2, Eff.gpg ["--batch", "--yes", "--delete-secret-and-public-key", f2] ∈
       (delete_gpg_key baseWorld baseSt "ABC123").2 → f2 = "AAAABBBB") :=
  (c6_delete_key_contract baseWorld baseSt "ABC123").1 listKeysColonsSample "" "AAAABBBB" "" ""
    rfl rfl (by decide) rfl

set_option maxRecDepth 8192 in
/-- C2 (counterexample): a complete run of `connect_to_github` — the
GitHub-connection flow `GPG-KeyManager.py` actually invokes for `-cg` —
in which the upload POST returns 201 and the run succeeds, yet the
persisted LocalConfig is left exactly as before (here: no file at all), so
it contains neither `github_key_added = true` nor any `last_config_update`. -/
theorem c2_counterexample :
    connect_to_github baseWorld baseSt "ABC123" = (true, baseSt) ∧
    baseWorld.postUserGpgKeys = NetOut.resp 201 [] "" ∧
    (load_config (connect_to_github baseWorld baseSt "ABC123").2.file).github_key_added
      ≠ some true ∧
    (load_config (connect_to_github baseWorld baseSt "ABC123").2.file).last_config_update
      = none := by
  refine ⟨rfl, rfl, by decide, rfl⟩

/-- C2 (amended): the property holds of `connect_github` — the other
GitHub-connection flow, which the current CLI driver does not call — and
not of the CLI-invoked `connect_to_github`, which never writes the config:
whenever a `connect_github` run reaches the upload POST and it returns 201,
the saved LocalConfig has `github_key_added = true` and a
`last_config_update` stamped with the (non-empty) current ISO timestamp. -/
theorem c2_connect_github_upload201 (w : World) (st : St)
    (kid fout ferr pkOut pkErr : String) (pr : String × String)
    (gs : Nat) (gkeys : List GhKey) (gmsg : String) (pks : List GhKey) (pmsg : String)
    (h1 : pyTrim w.tokenInput ≠ "")
    (h2 : (get_gpg_key_id w).1 = Except.ok (some kid))
    (h3 : w.gpgFingerprintColons kid = ProcOut.exit 0 fout ferr)
    (h4 : parseFprColons fout = Except.ok pr)
    (h5 : github_username_lookup st w ≠ "")
    (h6 : w.gpgExportBatch kid = ProcOut.exit 0 pkOut pkErr)
    (h7 : w.confirmInput = InputOut.line "y")
    (h8 : w.getUsersGpgKeys (github_username_lookup st w) = NetOut.resp gs gkeys gmsg)
    (h9 : (gs = 200 && gkeys.any
        (fun k => k.key_id = pyReplace (pyReplace kid " " "") "/" "")) = false)
    (h10 : w.postUserGpgKeys = NetOut.resp 201 pks pmsg)
    (h11 : w.nowIso ≠ "") :
    (connect_github w st).1 = Except.ok true ∧
    (∃ c, (connect_github w st).2.file = FileState.stored c ∧
       c.github_key_added = some true ∧
       c.last_config_update = some w.nowIso ∧
       c.last_config_update.getD "" ≠ "") := by
  have hylow : pyLower "y" = "y" := rfl
  have hrun : connect_github w st = (Except.ok true, connectGithubConfigUpdate w st) := by
    simp only [connect_github, h2, h3, h4, h6, h7, h8, h9, h10, hylow, reduceIte]
    rw [if_neg h1, if_neg h5]
    simp
  have hfile : (connect_github w st).2.file = FileState.stored
      { load_config st.file with
          github_key_added := some true
          github_configured := some true
          last_config_update := some w.nowIso } := by
    rw [hrun]
    rfl
  exact ⟨by rw [hrun], _, hfile, rfl, rfl, by simpa using h11⟩

set_option maxRecDepth 8192 in
/-- C2 (witness): a concrete `connect_github` run whose POST returns 201. -/
theorem c2_witness :
    (connect_github baseWorld baseSt).1 = Except.ok true ∧
    (∃ c, (connect_github baseWorld baseSt).2.file = FileState.stored c ∧
       c.github_key_added = some true ∧
       c.last_config_update = some baseWorld.nowIso ∧
       c.last_config_update.getD "" ≠ "") :=
  c2_connect_github_upload201 baseWorld baseSt "ABC123" fprColonsSample "" "PUBKEYBLOCK" ""
    ("AAAABBBB", "Jane Doe <jane@example.com>") 200 [] "" [] ""
    (by decide) rfl rfl rfl (by decide) rfl rfl rfl rfl rfl (by decide)

/-- C9: if the y/n confirmation prompt of `connect_github` times out, the
flow returns the same skipped/failure value `False` as an explicit `n`
answer — not an error — and the state, in particular the config file and
its `github_key_added` field, is left untouched (no config write occurs on
that path). -/
theorem c9_confirm_timeout_skips (w : World) (st : St)
    (kid fout ferr pkOut pkErr : String) (pr : String × String)
    (h1 : pyTrim w.tokenInput ≠ "")
    (h2 : (get_gpg_key_id w).1 = Except.ok (some kid))
    (h3 : w.gpgFingerprintColons kid = ProcOut.exit 0 fout ferr)
    (h4 : parseFprColons fout = Except.ok pr)
    (h5 : github_username_lookup st w ≠ "")
    (h6 : w.gpgExportBatch kid = ProcOut.exit 0 pkOut pkErr)
    (h7 : w.confirmInput = InputOut.timeout) :
    connect_github w st = (Except.ok false, st) ∧
    (∀ w2 : World, w2 = { w with confirmInput := InputOut.line "n" } →
       connect_github w2 st = (Except.ok false, st)) := by
  constructor
  · simp only [connect_github, h2, h3, h4, h6, h7, reduceIte]
    rw [if_neg h1, if_neg h5]
  · intro w2 hw2
    subst hw2
    have h2' : (get_gpg_key_id { w with confirmInput := InputOut.line "n" }).1 =
        Except.ok (some kid) := h2
    have h5' : github_username_lookup st { w with confirmInput := InputOut.line "n" } ≠ "" := h5
    have hnlow : pyLower "n" = "n" := rfl
    simp only [connect_github, h2', h3, h4, h6, hnlow, reduceIte]
    rw [if_neg h1, if_neg h5']
    simp

set_option maxRecDepth 8192 in
/-- C9 (witness): a concrete run whose confirmation prompt times out. -/
theorem c9_witness :
    connect_github { baseWorld with confirmInput := InputOut.timeout } baseSt =
      (Except.ok false, baseSt) :=
  (c9_confirm_timeout_skips { baseWorld with confirmInput := InputOut.timeout } baseSt
    "ABC123" fprColonsSample "" "PUBKEYBLOCK" "" ("AAAABBBB", "Jane Doe <jane@example.com>")
    (by decide) rfl rfl rfl (by decide) rfl rfl).1
